import Mathlib

/-!
# Verification of the cc-bridge routing / session / security core

A shallow embedding, in Lean 4, of the routing, session-lifecycle and
access-control subsystem of the cc-bridge source tree:

* the chat-key codec (`Router.buildChatKey` / `Router.parseChatKey`,
  `src/core/router.ts`),
* the binding resolver (`Router.findAgentId` / `Router.matchesBinding` /
  `Router.routeMessage`),
* the SQLite-backed store (`BridgeDatabase`, `src/db/sqlite.ts`) modelled as
  in-memory lists of rows with the upsert / delete semantics of the SQL
  statements it prepares,
* the pairing ledger (`PairingManager`, `src/security/pairing.ts`),
* the allowlist gate (`AllowlistManager`, `src/security/allowlist.ts`),
* the session manager's resume decision and streamed-turn protocol
  (`SessionManager`, `src/core/session-manager.ts`).

JavaScript string primitives used by the source (`String.prototype.split`,
`Array.prototype.join`, `toUpperCase`, `toLowerCase`, `startsWith`) are given
executable Lean models operating on the underlying character lists.  Machine
clocks (`new Date()`, `Date.now()`) are modelled as explicit `Nat` instants
passed to each operation; ISO-8601 timestamp comparison in SQL (which is
lexicographic, hence chronological) becomes `Nat` comparison.
-/

namespace CcBridge

/-! ## JavaScript string primitives -/

/-- `String.prototype.split(":")` on the character list: splits a character
list at every `':'`.  Always returns a non-empty list of (possibly empty)
segments, exactly as the JS split of a string by a one-character separator. -/
def splitChars : List Char → List (List Char)
  | [] => [[]]
  | c :: cs =>
    match splitChars cs with
    | [] => [[]]
    | p :: ps => if c = ':' then [] :: p :: ps else (c :: p) :: ps

/-- `Array.prototype.join(":")` on character lists. -/
def joinChars : List (List Char) → List Char
  | [] => []
  | [p] => p
  | p :: q :: ps => p ++ ':' :: joinChars (q :: ps)

/-- `chatKey.split(":")`, as used by `Router.parseChatKey`. -/
def jsSplit (s : String) : List String :=
  (splitChars s.data).map String.mk

/-- `parts.join(":")`, as used by `Router.buildChatKey`. -/
def jsJoin (l : List String) : String :=
  String.mk (joinChars (l.map String.data))

/-- `String.prototype.toUpperCase` (the code applies it to ASCII
alphanumeric pairing codes, where `Char.toUpper` agrees with JS). -/
def jsToUpper (s : String) : String := String.mk (s.data.map Char.toUpper)

/-- `String.prototype.toLowerCase` (applied to ASCII user names, where
`Char.toLower` agrees with JS). -/
def jsToLower (s : String) : String := String.mk (s.data.map Char.toLower)

/-- `s.startsWith(p)`: `p` is a prefix of `s`. -/
def jsStartsWith (s p : String) : Bool :=
  decide (p.data = s.data.take p.data.length)

/-- The ECMAScript `StrWhiteSpaceChar` set (`WhiteSpace` ∪
`LineTerminator`): TAB, LF, VT, FF, CR, SP, NBSP, the Unicode `Zs` space
separators, LS, PS and the BOM — the characters `ToNumber` trims from a
string before parsing it. -/
def jsWhitespaceChar (c : Char) : Bool :=
  [9, 10, 11, 12, 13, 32, 160, 5760, 8192, 8193, 8194, 8195, 8196, 8197,
   8198, 8199, 8200, 8201, 8202, 8232, 8233, 8239, 8287, 12288,
   65279].contains c.toNat

def isHexDigitChar (c : Char) : Bool :=
  c.isDigit || ('a' ≤ c && c ≤ 'f') || ('A' ≤ c && c ≤ 'F')

def isOctalDigitChar (c : Char) : Bool := '0' ≤ c && c ≤ '7'

def isBinaryDigitChar (c : Char) : Bool := c = '0' || c = '1'

/-- `DecimalDigits` preceded by an optional sign and followed by nothing —
the tail of an `ExponentPart`. -/
def signedDigits (l : List Char) : Bool :=
  match l with
  | [] => false
  | c :: rest =>
      if c = '+' ∨ c = '-' then !rest.isEmpty && rest.all Char.isDigit
      else (c :: rest).all Char.isDigit

/-- An optional `ExponentPart` closing the literal: empty, or `e`/`E`
followed by optionally signed digits. -/
def expOk (l : List Char) : Bool :=
  match l with
  | [] => true
  | c :: rest => if c = 'e' ∨ c = 'E' then signedDigits rest else false

/-- `StrUnsignedDecimalLiteral`: the literal `Infinity`, or
`DecimalDigits . DecimalDigits? ExponentPart?`, `. DecimalDigits
ExponentPart?`, or `DecimalDigits ExponentPart?`. -/
def unsignedDec (l : List Char) : Bool :=
  if l = "Infinity".data then true
  else
    let ds := l.takeWhile Char.isDigit
    let rest := l.dropWhile Char.isDigit
    match rest with
    | [] => !ds.isEmpty
    | '.' :: rest2 =>
        let ds2 := rest2.takeWhile Char.isDigit
        let rest3 := rest2.dropWhile Char.isDigit
        (!ds.isEmpty || !ds2.isEmpty) && expOk rest3
    | _ => !ds.isEmpty && expOk rest

/-- `StrDecimalLiteral`: an optional sign before an unsigned decimal. -/
def strSignedDec (l : List Char) : Bool :=
  match l with
  | [] => false
  | c :: rest =>
      if c = '+' ∨ c = '-' then unsignedDec rest else unsignedDec (c :: rest)

/-- `StrNumericLiteral`: a signed decimal / `Infinity`, or one of the
unsigned non-decimal integer literals `0x…`/`0o…`/`0b…` (which admit no
sign, exactly as in JS where `Number("-0x1F")` is `NaN`). -/
def strNumericLiteral (l : List Char) : Bool :=
  match l with
  | '0' :: x :: rest =>
      if x = 'x' ∨ x = 'X' then !rest.isEmpty && rest.all isHexDigitChar
      else if x = 'o' ∨ x = 'O' then !rest.isEmpty && rest.all isOctalDigitChar
      else if x = 'b' ∨ x = 'B' then !rest.isEmpty && rest.all isBinaryDigitChar
      else strSignedDec ('0' :: x :: rest)
  | _ => strSignedDec l

/-- The JS numeric test `!isNaN(Number(s))` used by `Router.parseChatKey`,
per the ECMAScript `StringNumericLiteral` grammar of `ToNumber`: trim
`StrWhiteSpaceChar`s from both ends; the empty (or whitespace-only) string
converts to `0` and is numeric; otherwise the remainder must be a complete
`StrNumericLiteral` — a signed decimal with optional fraction and
exponent, a signed `Infinity`, or an unsigned `0x`/`0o`/`0b` integer
literal.  (Numeric separators are not allowed in `ToNumber`, and
`ToNumber` has no legacy-octal rule, so plain digit runs with leading
zeros are decimal — both as in JS.) -/
def jsNumeric (s : String) : Bool :=
  let trimmed := ((s.data.dropWhile jsWhitespaceChar).reverse.dropWhile
    jsWhitespaceChar).reverse
  trimmed.isEmpty || strNumericLiteral trimmed

/-! ## Chat-key codec (`Router.parseChatKey` / `Router.buildChatKey`) -/

/-- The record returned by `Router.parseChatKey`.  Fields the JS object may
leave `undefined` (`botId`, `sessionName`, and `id` when the key is too
short for the shape the parser picked) are `Option`s. -/
structure ChatKeyParts where
  channel : String
  botId : Option String := none
  id : Option String := none
  sessionName : Option String := none
  isGroup : Bool := false
deriving DecidableEq, Repr

/-- The options bag of `Router.buildChatKey`. -/
structure BuildOpts where
  botId : Option String := none
  isGroup : Bool := false
  sessionName : Option String := none
deriving DecidableEq, Repr

/-- `Router.buildChatKey(channel, id, options)`.  JS truthiness: an empty
`botId` or `sessionName` string is falsy and therefore skipped, as is a
`sessionName` equal to the literal `"main"`. -/
def buildChatKey (channel id : String) (options : BuildOpts := {}) : String :=
  let parts : List String :=
    [channel]
      ++ (match options.botId with
          | some b => if b = "" then [] else [b]
          | none => [])
      ++ (if options.isGroup then
            [if channel = "discord" then "channel" else "group"]
          else [])
      ++ [id]
      ++ (match options.sessionName with
          | some s => if s = "" then [] else if s = "main" then [] else [s]
          | none => [])
  jsJoin parts

/-- The body of `Router.parseChatKey` after the initial `split(":")`:
decides the structural shape from the segment list.  `none` models the
thrown `Invalid chat key format` error; out-of-range JS indexing
(`parts[i]` = `undefined`) is `parts[i]?` = `none`. -/
def parseParts (parts : List String) : Option ChatKeyParts :=
  if parts.length < 2 then none
  else
    let channel := (parts[0]?).getD ""
    if channel = "telegram" then
      if parts[1]? = some "group" then
        -- Single-bot group: telegram:group:groupId[:sessionName]
        some { channel, id := parts[2]?, sessionName := parts[3]?, isGroup := true }
      else if parts.length ≥ 3 ∧ parts[2]? = some "group" then
        -- Multi-bot group: telegram:botId:group:groupId[:sessionName]
        some { channel, botId := parts[1]?, id := parts[3]?,
               sessionName := parts[4]?, isGroup := true }
      else if parts.length ≥ 3 ∧ (parts[2]?.map jsNumeric).getD false then
        -- Multi-bot DM: telegram:botId:userId[:sessionName]
        some { channel, botId := parts[1]?, id := parts[2]?,
               sessionName := parts[3]?, isGroup := false }
      else
        -- Single-bot DM: telegram:userId[:sessionName]
        some { channel, id := parts[1]?, sessionName := parts[2]?, isGroup := false }
    else if channel = "discord" then
      if parts[1]? = some "channel" then
        -- Single-bot channel: discord:channel:channelId[:sessionName]
        some { channel, id := parts[2]?, sessionName := parts[3]?, isGroup := true }
      else if parts.length ≥ 3 ∧ parts[2]? = some "channel" then
        -- Multi-bot channel: discord:botId:channel:channelId[:sessionName]
        some { channel, botId := parts[1]?, id := parts[3]?,
               sessionName := parts[4]?, isGroup := true }
      else if parts.length ≥ 3 then
        -- Multi-bot DM: discord:botId:userId[:sessionName]
        some { channel, botId := parts[1]?, id := parts[2]?,
               sessionName := parts[3]?, isGroup := false }
      else
        -- Single-bot DM: discord:userId[:sessionName]
        some { channel, id := parts[1]?, sessionName := parts[2]?, isGroup := false }
    else
      -- WhatsApp-style fallthrough (no multi-bot support)
      if parts[1]? = some "group" then
        some { channel, id := parts[2]?, sessionName := parts[3]?, isGroup := true }
      else
        some { channel, id := parts[1]?, sessionName := parts[2]?, isGroup := false }

/-- `Router.parseChatKey(chatKey)`. -/
def parseChatKey (chatKey : String) : Option ChatKeyParts :=
  parseParts (jsSplit chatKey)

/-! ### Valid chat-key tuples and the round-trip domain -/

/-- The abstract tuple of spec §3: `(platform, botId?, isGroup, peerOrGroupId,
sessionName?)`.  `sessionName = none` denotes the default `"main"`. -/
structure ChatKeyTuple where
  channel : String
  botId : Option String := none
  isGroup : Bool := false
  id : String
  sessionName : Option String := none
deriving DecidableEq, Repr

/-- Encoding of a tuple via `Router.buildChatKey`. -/
def encodeTuple (x : ChatKeyTuple) : String :=
  buildChatKey x.channel x.id { botId := x.botId, isGroup := x.isGroup,
                                sessionName := x.sessionName }

/-- The parse result the round-trip law expects for a tuple. -/
def decodedOf (x : ChatKeyTuple) : ChatKeyParts :=
  { channel := x.channel, botId := x.botId, id := some x.id,
    sessionName := x.sessionName, isGroup := x.isGroup }

def noColon (s : String) : Prop := ':' ∉ s.data

instance (s : String) : Decidable (noColon s) := by
  unfold noColon; infer_instance

/-- The domain on which the encode→decode round trip provably holds.
Beyond the obvious hygiene (segments free of `':'`, no empty or `"main"`
session name, no empty bot id), each structural shape needs exactly the
conditions that keep `parseChatKey`'s lookahead from picking a different
shape; they are recorded per shape below, stated with the decoder's own
numeric test `jsNumeric`. -/
def validTuple (x : ChatKeyTuple) : Prop :=
  noColon x.id ∧
  (∀ b, x.botId = some b → noColon b ∧ b ≠ "") ∧
  (∀ s, x.sessionName = some s → noColon s ∧ s ≠ "" ∧ s ≠ "main") ∧
  ((x.channel = "telegram" ∧
      (match x.botId, x.isGroup with
       | none, false =>
           x.id ≠ "group" ∧
           ∀ s, x.sessionName = some s → s ≠ "group" ∧ jsNumeric s = false
       | none, true => True
       | some b, false => b ≠ "group" ∧ jsNumeric x.id = true
       | some b, true => b ≠ "group")) ∨
   (x.channel = "discord" ∧
      (match x.botId, x.isGroup with
       | none, false => x.id ≠ "channel" ∧ x.sessionName = none
       | none, true => True
       | some b, false => b ≠ "channel" ∧ x.id ≠ "channel"
       | some b, true => b ≠ "channel")))

/-! ## Core types (`src/core/types.ts`) -/

/-- `ChannelType = "telegram" | "discord"`. -/
inductive ChannelType where
  | telegram
  | discord
deriving DecidableEq, Repr

/-- `DmPolicy = "pairing" | "allowlist" | "open"` (the literal `"open"` is a
Lean keyword, hence the constructor name `openPolicy`). -/
inductive DmPolicy where
  | pairing
  | allowlist
  | openPolicy
deriving DecidableEq, Repr

structure UserInfo where
  id : String
  username : Option String := none
  displayName : Option String := none
  channel : ChannelType
deriving DecidableEq, Repr

/-- `AgentConfig`.  Execution-only fields (model, system prompt, tool lists,
MCP servers, permission mode, max turns) are not read by any modelled
operation other than being forwarded opaquely to the execution port, and are
elided. -/
structure AgentConfig where
  id : String
  name : String
  workspace : String
deriving DecidableEq, Repr

/-- The `match` criteria of an `AgentBinding` (field renamed `mtch`:
`match` is a Lean keyword). -/
structure MatchCriteria where
  channel : Option ChannelType := none
  peer : Option String := none
  group : Option String := none
deriving DecidableEq, Repr

structure AgentBinding where
  agentId : String
  mtch : Option MatchCriteria := none
deriving DecidableEq, Repr

/-- `ChannelConfig` — the base channel configuration read by
`AllowlistManager.isAllowed`.  An absent `allowFrom` behaves as the empty
list (the code guards `!config.allowFrom`). -/
structure ChannelConfig where
  enabled : Bool
  dmPolicy : DmPolicy
  allowFrom : List String := []
deriving DecidableEq, Repr

/-- The fields of `IncomingMessage` read by the modelled routing and session
paths (`replyTo` and `timestamp` are never read there). -/
structure IncomingMessage where
  chatKey : String
  channel : ChannelType
  userId : String
  text : String
  userInfo : UserInfo
  isGroup : Bool
  groupId : Option String := none
deriving DecidableEq, Repr

/-! ## Database model (`BridgeDatabase`, `src/db/sqlite.ts`)

Each table is a list of rows; the prepared SQL statements become list
operations with the same semantics.  The autoincrement `id` column of
`sessions` is not read by any modelled claim and is elided.  ISO-8601
timestamps, compared lexicographically by SQLite (hence chronologically),
are modelled as `Nat` instants. -/

/-- A row of the `sessions` table. -/
structure SessionRow where
  chatKey : String
  sessionName : String
  sdkSessionId : String
  workspace : Option String := none
  agentId : String
  createdAt : Nat
  lastActive : Nat
  status : String := "active"
deriving DecidableEq, Repr

/-- A row of the `pairing_requests` table. -/
structure PairingRow where
  code : String
  chatKey : String
  userInfo : UserInfo
  createdAt : Nat
  expiresAt : Nat
deriving DecidableEq, Repr

/-- A row of the `allowlist` table. -/
structure AllowRow where
  chatKey : String
  addedAt : Nat
  addedBy : Option String := none
deriving DecidableEq, Repr

structure DB where
  sessions : List SessionRow := []
  activeSessions : List (String × String) := []
  pairings : List PairingRow := []
  allowRows : List AllowRow := []
deriving DecidableEq, Repr

namespace DB

/-- Key predicate for the `UNIQUE(chat_key, session_name)` natural key. -/
def sessionKeyIs (chatKey sessionName : String) (r : SessionRow) : Bool :=
  r.chatKey = chatKey ∧ r.sessionName = sessionName

/-- `BridgeDatabase.getSession`: `SELECT * FROM sessions WHERE chat_key = ?
AND session_name = ?`. -/
def getSession (db : DB) (chatKey : String) (sessionName : String := "main") :
    Option SessionRow :=
  db.sessions.find? (sessionKeyIs chatKey sessionName)

/-- `BridgeDatabase.saveSession`: `INSERT ... ON CONFLICT(chat_key,
session_name) DO UPDATE SET sdk_session_id = excluded.sdk_session_id,
last_active = excluded.last_active`.  On conflict only those two columns
change; otherwise a fresh row is inserted with status defaulting to
`'active'`. -/
def saveSession (db : DB) (chatKey sdkSessionId agentId : String)
    (sessionName : String := "main") (workspace : Option String := none)
    (now : Nat := 0) : DB :=
  if db.sessions.any (sessionKeyIs chatKey sessionName) then
    { db with sessions := db.sessions.map fun r =>
        if sessionKeyIs chatKey sessionName r then
          { r with sdkSessionId := sdkSessionId, lastActive := now }
        else r }
  else
    { db with sessions := db.sessions ++
        [{ chatKey, sessionName, sdkSessionId, workspace, agentId,
           createdAt := now, lastActive := now, status := "active" }] }

/-- `BridgeDatabase.updateSessionActivity`. -/
def updateSessionActivity (db : DB) (chatKey : String)
    (sessionName : String := "main") (now : Nat := 0) : DB :=
  { db with sessions := db.sessions.map fun r =>
      if sessionKeyIs chatKey sessionName r then { r with lastActive := now }
      else r }

/-- `BridgeDatabase.deleteSession`. -/
def deleteSession (db : DB) (chatKey : String)
    (sessionName : String := "main") : DB :=
  { db with sessions := db.sessions.filter fun r =>
      !(sessionKeyIs chatKey sessionName r) }

/-- `BridgeDatabase.deleteAllSessions`. -/
def deleteAllSessions (db : DB) (chatKey : String) : DB :=
  { db with
    sessions := db.sessions.filter fun r => !(r.chatKey = chatKey : Bool),
    activeSessions := db.activeSessions.filter fun p =>
      !(p.1 = chatKey : Bool) }

/-- `BridgeDatabase.getActiveSessionName`: `row?.session_name || "main"`
(an empty stored name is falsy in JS and also falls back to `"main"`). -/
def getActiveSessionName (db : DB) (chatKey : String) : String :=
  match db.activeSessions.find? (fun p => p.1 = chatKey) with
  | some p => if p.2 = "" then "main" else p.2
  | none => "main"

/-- `BridgeDatabase.setActiveSession` (upsert on `chat_key`). -/
def setActiveSession (db : DB) (chatKey sessionName : String) : DB :=
  if db.activeSessions.any (fun p => p.1 = chatKey) then
    { db with activeSessions := db.activeSessions.map fun p =>
        if p.1 = chatKey then (p.1, sessionName) else p }
  else
    { db with activeSessions := db.activeSessions ++ [(chatKey, sessionName)] }

/-- `BridgeDatabase.savePairingRequest`. -/
def savePairingRequest (db : DB) (code chatKey : String) (userInfo : UserInfo)
    (expiresInMs : Nat) (now : Nat) : DB :=
  { db with pairings := db.pairings ++
      [{ code, chatKey, userInfo, createdAt := now,
         expiresAt := now + expiresInMs }] }

/-- `BridgeDatabase.getPairingRequest`: `SELECT * FROM pairing_requests
WHERE code = ?` — SQLite's default BINARY collation, so the comparison is
case-sensitive byte equality. -/
def getPairingRequest (db : DB) (code : String) : Option PairingRow :=
  db.pairings.find? (fun r => r.code = code)

/-- `BridgeDatabase.deletePairingRequest`: `DELETE FROM pairing_requests
WHERE code = ?` (case-sensitive). -/
def deletePairingRequest (db : DB) (code : String) : DB :=
  { db with pairings := db.pairings.filter fun r => !(r.code = code : Bool) }

/-- `BridgeDatabase.cleanupExpiredPairingRequests`:
`DELETE FROM pairing_requests WHERE expires_at < now`. -/
def cleanupExpiredPairingRequests (db : DB) (now : Nat) : DB :=
  { db with pairings := db.pairings.filter fun r => !(r.expiresAt < now : Bool) }

/-- `BridgeDatabase.listPendingPairingRequests`: `SELECT * FROM
pairing_requests WHERE expires_at > now` (the `ORDER BY created_at DESC`
only permutes the result and is not modelled). -/
def listPendingPairingRequests (db : DB) (now : Nat) : List PairingRow :=
  db.pairings.filter fun r => now < r.expiresAt

/-- `BridgeDatabase.isAllowed`: membership of the chat key in `allowlist`. -/
def isAllowed (db : DB) (chatKey : String) : Bool :=
  db.allowRows.any fun r => r.chatKey = chatKey

/-- `BridgeDatabase.addToAllowlist`: `INSERT OR IGNORE`. -/
def addToAllowlist (db : DB) (chatKey : String) (addedBy : Option String)
    (now : Nat) : DB :=
  if db.allowRows.any (fun r => r.chatKey = chatKey) then db
  else { db with allowRows := db.allowRows ++ [{ chatKey, addedAt := now, addedBy }] }

/-- `BridgeDatabase.removeFromAllowlist`. -/
def removeFromAllowlist (db : DB) (chatKey : String) : DB :=
  { db with allowRows := db.allowRows.filter fun r => !(r.chatKey = chatKey : Bool) }

end DB

/-! ## Router (`src/core/router.ts`) -/

structure RouterState where
  /-- Insertion-ordered contents of the `agents` `Map`. -/
  agents : List AgentConfig
  bindings : List AgentBinding
  defaultAgentId : String
deriving DecidableEq, Repr

namespace Router

/-- `Router.getAgent`: `Map.get`.  On duplicate ids the later `Map.set` in
the constructor overwrites the earlier one, so lookup finds the last
occurrence. -/
def getAgent (rt : RouterState) (agentId : String) : Option AgentConfig :=
  rt.agents.reverse.find? fun a => a.id = agentId

/-- The `Router` constructor: `defaultAgentId` is the first binding with no
`match` (an empty `agentId` is falsy and falls through), else
`config.agents.list[0].id`; `none` models the `TypeError` thrown by
`config.agents.list[0].id` on an empty agent list. -/
def mkRouter (agents : List AgentConfig) (bindings : List AgentBinding) :
    Option RouterState :=
  let fromBinding : Option String :=
    match bindings.find? (fun b => b.mtch.isNone) with
    | some b => if b.agentId = "" then none else some b.agentId
    | none => none
  match fromBinding with
  | some d => some { agents, bindings, defaultAgentId := d }
  | none =>
    match agents with
    | a :: _ => some { agents, bindings, defaultAgentId := a.id }
    | [] => none

/-- `Router.matchesBinding`.  JS truthiness: a criterion that is the empty
string is falsy and skipped exactly like an absent one. -/
def matchesBinding (binding : AgentBinding) (channel : ChannelType)
    (peerId : String) (groupId : Option String) : Bool :=
  match binding.mtch with
  | none => true
  | some m =>
    if (match m.channel with
        | some c => decide (c ≠ channel)
        | none => false) then false
    else if (match m.peer with
        | some p => decide (p ≠ "") && decide (p ≠ peerId)
        | none => false) then false
    else if (match m.group with
        | some g => decide (g ≠ "") && decide (some g ≠ groupId)
        | none => false) then false
    else true

/-- `Router.findAgentId`: first matching binding wins, else the default. -/
def findAgentId (rt : RouterState) (channel : ChannelType) (peerId : String)
    (groupId : Option String) : String :=
  match rt.bindings.find? (fun b => matchesBinding b channel peerId groupId) with
  | some b => b.agentId
  | none => rt.defaultAgentId

/-- `Router.routeMessage`.  When the resolved agent id has no profile the
code falls back to the default agent's profile; `none` models the
`No agent configured for routing` error thrown when that profile is also
missing. -/
def routeMessage (rt : RouterState) (message : IncomingMessage) :
    Option AgentConfig :=
  let agentId := findAgentId rt message.channel message.userId message.groupId
  match getAgent rt agentId with
  | some agent => some agent
  | none => getAgent rt rt.defaultAgentId

end Router

/-! ## Allowlist gate (`AllowlistManager`, `src/security/allowlist.ts`) -/

/-- The `{ allowed, reason? }` object returned by
`AllowlistManager.isAllowed`. -/
structure Decision where
  allowed : Bool
  reason : Option String := none
deriving DecidableEq, Repr

namespace AllowlistManager

/-- `AllowlistManager.isInConfigAllowlist`.  JS truthiness: the
case-insensitive clause is guarded by `userInfo.username &&`, so an `""`
username disables it (the exact-equality clause still applies). -/
def isInConfigAllowlist (userInfo : UserInfo) (config : ChannelConfig) : Bool :=
  if config.allowFrom.isEmpty then false
  else config.allowFrom.any fun allowed =>
    decide (allowed = userInfo.id) ||
    (match userInfo.username with
     | some un => decide (allowed = un)
     | none => false) ||
    (match userInfo.username with
     | some un =>
         if un = "" then false
         else decide (jsToLower allowed = jsToLower un)
     | none => false)

/-- `AllowlistManager.isAllowed`.  (`DmPolicy` is a closed enum, so the
`default: Unknown policy` arm of the source `switch` is unreachable and has
no corresponding branch here.) -/
def isAllowed (db : DB) (chatKey : String) (userInfo : UserInfo)
    (channelConfig : Option ChannelConfig) : Decision :=
  match channelConfig with
  | none => { allowed := false, reason := some "Channel not configured" }
  | some config =>
    if !config.enabled then
      { allowed := false, reason := some "Channel is disabled" }
    else
      match config.dmPolicy with
      | .openPolicy => { allowed := true }
      | .pairing =>
          if db.isAllowed chatKey then { allowed := true }
          else if isInConfigAllowlist userInfo config then { allowed := true }
          else { allowed := false, reason := some "Pairing required" }
      | .allowlist =>
          if db.isAllowed chatKey then { allowed := true }
          else if isInConfigAllowlist userInfo config then { allowed := true }
          else { allowed := false, reason := some "Not in allowlist" }

end AllowlistManager

/-! ## Pairing ledger (`PairingManager`, `src/security/pairing.ts`) -/

inductive ApproveResult where
  | ok (chatKey : String) (userInfo : UserInfo)
  | failed (reason : String)
deriving DecidableEq, Repr

namespace PairingManager

/-- `PairingManager.generateCode`.  The code produced by
`randomBytes(…).toString("hex").toUpperCase().slice(0, 6)` is passed in as
the `code` parameter (its alphabet is uppercase hex, so
`jsToUpper code = code`). -/
def generateCode (db : DB) (chatKey : String) (userInfo : UserInfo)
    (code : String) (expiresInMs now : Nat) : DB :=
  (db.cleanupExpiredPairingRequests now).savePairingRequest
    code chatKey userInfo expiresInMs now

/-- `PairingManager.approve`.  The lookup upper-cases its input
(`code.toUpperCase()`); the deletions and the `pairing:` audit tag use the
raw `code` exactly as the source does.  `new Date() > request.expiresAt`
is `request.expiresAt < now`. -/
def approve (db : DB) (now : Nat) (code : String) : DB × ApproveResult :=
  match db.getPairingRequest (jsToUpper code) with
  | none => (db, .failed "Invalid or expired pairing code")
  | some request =>
    if request.expiresAt < now then
      (db.deletePairingRequest code, .failed "Pairing code has expired")
    else
      ((db.addToAllowlist request.chatKey (some ("pairing:" ++ code)) now
         ).deletePairingRequest code,
       .ok request.chatKey request.userInfo)

/-- `PairingManager.reject`: case-insensitive lookup, raw-`code` delete. -/
def reject (db : DB) (code : String) : DB × Bool :=
  match db.getPairingRequest (jsToUpper code) with
  | none => (db, false)
  | some _ => (db.deletePairingRequest code, true)

/-- `PairingManager.listPending`. -/
def listPending (db : DB) (now : Nat) : List PairingRow :=
  db.listPendingPairingRequests now

end PairingManager

/-! ## Session manager (`SessionManager`, `src/core/session-manager.ts`)

The in-memory `activeSessions` cache is an optimization that no modelled
claim reads: the resume decision in `sendMessage` always consults the
database row directly, so the model carries the `DB` alone. -/

/-- The members of the `StreamChunk` union. -/
inductive StreamChunk where
  | text (t : String)
  | toolUse (toolName : String)
  | toolResult
  | error (e : String)
  | done
deriving DecidableEq, Repr

/-- Discriminator for `error` chunks (`chunk.type === "error"`). -/
def isErrorChunk : StreamChunk → Bool
  | .error _ => true
  | _ => false

/-- A content block of an SDK assistant message. -/
inductive ContentBlock where
  | text (t : String)
  | toolUse (name : String)
  | other
deriving DecidableEq, Repr

/-- An event of the agent-execution port's stream. -/
inductive SDKEvent where
  | assistant (content : List ContentBlock)
  | result (sessionId : String)
  | other
deriving DecidableEq, Repr

/-- One run of the agent-execution port: the events it delivered in order,
and `error = some e` when it (or starting it) threw with message `e` after
delivering `events`. -/
structure PortRun where
  events : List SDKEvent
  error : Option String := none
deriving DecidableEq, Repr

structure SendMessageOptions where
  agentId : Option String := none
  sessionName : Option String := none
deriving DecidableEq, Repr

/-- The observable outcome of one `sendMessage` generator run: either the
pre-`try` `routeMessage` call threw (nothing yielded, state untouched), or
the generator ran, passing `resume` to the execution port, yielding
`chunks` in order and leaving the database at `db`. -/
inductive SendOutcome where
  | threw
  | ran (resume : Option String) (chunks : List StreamChunk) (db : DB)
deriving DecidableEq, Repr

namespace SessionManager

/-- The locally generated placeholder
`` `ccb-${Date.now()}-${Math.random().toString(36).slice(2, 8)}` ``;
`rand` stands for the random base-36 suffix. -/
def placeholderSessionId (now : Nat) (rand : String) : String :=
  "ccb-" ++ (toString now ++ "-" ++ rand)

/-- `SessionManager.createNewSession`'s database effect: save a placeholder
row for `(chatKey, sessionName)`. -/
def createNewSession (db : DB) (chatKey : String) (agentConfig : AgentConfig)
    (sessionName : String) (now : Nat) (rand : String) : DB :=
  db.saveSession chatKey (placeholderSessionId now rand) agentConfig.id
    sessionName (some agentConfig.workspace) now

/-- The resume decision of `sendMessage` (lines 130–131 and 157–159):
`resumeSessionId && !resumeSessionId.startsWith("ccb-")`. -/
def resumeTokenOf (db : DB) (chatKey sessionName : String) : Option String :=
  match db.getSession chatKey sessionName with
  | none => none
  | some row =>
      if row.sdkSessionId = "" then none
      else if jsStartsWith row.sdkSessionId "ccb-" then none
      else some row.sdkSessionId

/-- The body of `processSDKMessage`'s block loop: a `text` block yields a
`text` chunk, a `tool_use` block a `tool_use` chunk, anything else is
skipped. -/
def processBlock : ContentBlock → Option StreamChunk
  | .text t => some (.text t)
  | .toolUse n => some (.toolUse n)
  | .other => none

/-- `SessionManager.processSDKMessage`: the first `text` or `tool_use`
block of an assistant message (the loop returns on the first hit);
`result` events contribute no chunk. -/
def processSDKMessage (event : SDKEvent) : Option StreamChunk :=
  match event with
  | .assistant content => content.findSome? processBlock
  | .result _ => none
  | .other => none

/-- The `sessionId` tracked across the event loop: overwritten by each
`result` event's `session_id`. -/
def lastSessionId (events : List SDKEvent) : Option String :=
  events.foldl
    (fun acc ev => match ev with | .result sid => some sid | _ => acc) none

/-- The `sessionName` used by `sendMessage`:
`options.sessionName ?? db.getActiveSessionName(chatKey)` (destructuring
default). -/
def sessionNameOf (db : DB) (options : SendMessageOptions)
    (message : IncomingMessage) : String :=
  match options.sessionName with
  | some s => s
  | none => db.getActiveSessionName message.chatKey

/-- The body of `sendMessage` from the session lookup onward (the `try`
block): compute the resume token, stream the port's events through
`processSDKMessage`, and either persist the final session id and yield
`done`, or — when the port threw — yield a single `error` chunk and leave
the database untouched. -/
def runTurn (db : DB) (message : IncomingMessage) (sessionName : String)
    (agent : AgentConfig) (port : PortRun) (now : Nat) : SendOutcome :=
  let resumeSessionId := (db.getSession message.chatKey sessionName).map
    (fun r => r.sdkSessionId)
  let resume := resumeTokenOf db message.chatKey sessionName
  let chunks := port.events.filterMap processSDKMessage
  let sessionId := match lastSessionId port.events with
    | some sid => some sid
    | none => resumeSessionId
  match port.error with
  | some e => .ran resume (chunks ++ [StreamChunk.error e]) db
  | none =>
    let dbSaved := match sessionId with
      | some sid =>
          if sid = "" then db
          else db.saveSession message.chatKey sid agent.id sessionName
            (some agent.workspace) now
      | none => db
    .ran resume (chunks ++ [.done]) dbSaved

/-- `SessionManager.sendMessage`: agent resolution (explicit `agentId`
override, with an `Unknown agent` error chunk when it names no profile, or
`Router.routeMessage`, whose thrown error escapes the generator), then
`runTurn`. -/
def sendMessage (rt : RouterState) (db : DB) (message : IncomingMessage)
    (options : SendMessageOptions) (port : PortRun) (now : Nat) :
    SendOutcome :=
  let sessionName := sessionNameOf db options message
  match options.agentId with
  | some aid =>
    match Router.getAgent rt aid with
    | none => .ran none [.error ("Unknown agent: " ++ aid)] db
    | some agent => runTurn db message sessionName agent port now
  | none =>
    match Router.routeMessage rt message with
    | none => .threw
    | some agent => runTurn db message sessionName agent port now

/-- Agent resolution as seen by a caller of `sendMessage`: the explicit
override when present, else the router's choice. -/
def resolvedAgent (rt : RouterState) (message : IncomingMessage)
    (options : SendMessageOptions) : Option AgentConfig :=
  match options.agentId with
  | some aid => Router.getAgent rt aid
  | none => Router.routeMessage rt message

end SessionManager

/-! ## Spec-side definitions and concrete fixtures -/

/-- Binding match as the spec words it (§4.2): "a binding matches if every
criterion it specifies equals the corresponding input field (absent
criteria always match)".  Stated for comparison with the source's
`Router.matchesBinding`. -/
def specMatchesBinding (binding : AgentBinding) (channel : ChannelType)
    (peerId : String) (groupId : Option String) : Prop :=
  match binding.mtch with
  | none => True
  | some m =>
      (∀ c, m.channel = some c → c = channel) ∧
      (∀ p, m.peer = some p → p = peerId) ∧
      (∀ g, m.group = some g → groupId = some g)

/-- A discord single-bot DM tuple with a non-default session name. -/
def cexTuple : ChatKeyTuple :=
  { channel := "discord", id := "42", sessionName := some "work" }

/-- A telegram multi-bot DM tuple with a non-default session name. -/
def witTuple : ChatKeyTuple :=
  { channel := "telegram", botId := some "b1", id := "123",
    sessionName := some "work" }

/-- A config with one agent profile and one binding that names a
non-existent agent id (configuration drift). -/
def cexRouter : RouterState :=
  { agents := [{ id := "a1", name := "Agent", workspace := "/w" }],
    bindings := [{ agentId := "ghost", mtch := some { channel := some .discord } }],
    defaultAgentId := "a1" }

/-- A discord message that the drifted binding of `cexRouter` matches. -/
def cexMessage : IncomingMessage :=
  { chatKey := "discord:7", channel := .discord, userId := "7", text := "hi",
    userInfo := { id := "7", channel := .discord }, isGroup := false }

/-- A pairing row as `generateCode` stores it: uppercase-hex code, not yet
expired at instant 10. -/
def bugRow : PairingRow :=
  { code := "AB12CD", chatKey := "telegram:5",
    userInfo := { id := "5", channel := .telegram },
    createdAt := 0, expiresAt := 100 }

/-- A database holding exactly the pending request `bugRow`. -/
def bugDB : DB := { pairings := [bugRow] }

/-- A pairing row already expired at instant 5 (issued with `ttl = 0`). -/
def expiredRow : PairingRow :=
  { code := "FFAA00", chatKey := "telegram:9",
    userInfo := { id := "9", channel := .telegram },
    createdAt := 0, expiresAt := 0 }

/-- A database holding exactly the expired request `expiredRow`. -/
def expiredDB : DB := { pairings := [expiredRow] }

/-- An existing session row bound to agent `a1`. -/
def row9 : SessionRow :=
  { chatKey := "telegram:5", sessionName := "main", sdkSessionId := "ccb-1-x",
    workspace := some "/w", agentId := "a1", createdAt := 1, lastActive := 1,
    status := "active" }

/-- A database holding exactly `row9`. -/
def db9 : DB := { sessions := [row9] }

/-- A concrete agent profile. -/
def agent0 : AgentConfig := { id := "a1", name := "Agent", workspace := "/w" }

/-- A router with `agent0` and a single unconditional binding to it. -/
def rt0 : RouterState :=
  { agents := [agent0], bindings := [{ agentId := "a1" }],
    defaultAgentId := "a1" }

/-- A telegram message for `rt0`. -/
def msg0 : IncomingMessage :=
  { chatKey := "telegram:5", channel := .telegram, userId := "5",
    text := "hello", userInfo := { id := "5", channel := .telegram },
    isGroup := false }

/-- A port run that delivers one text event and then raises. -/
def errPort : PortRun :=
  { events := [.assistant [.text "partial"]], error := some "boom" }

/-- The binding list of spec §8: discord traffic to `A`, everything else
to the unconditional default binding `B`. -/
def rt6 : RouterState :=
  { agents := [],
    bindings := [{ agentId := "A", mtch := some { channel := some .discord } },
                 { agentId := "B" }],
    defaultAgentId := "dflt" }

/-- A router with an empty binding list. -/
def rtEmpty : RouterState :=
  { agents := [], bindings := [], defaultAgentId := "dflt" }

/-! ### Split / join lemmas -/

theorem splitChars_ne_nil (l : List Char) : splitChars l ≠ [] := by
  cases l with
  | nil => simp [splitChars]
  | cons c cs =>
    simp only [splitChars]
    cases h : splitChars cs with
    | nil => simp
    | cons p ps =>
      by_cases hc : c = ':' <;> simp [hc]

theorem splitChars_no_colon (p : List Char) (h : ':' ∉ p) : splitChars p = [p] := by
  induction p with
  | nil => rfl
  | cons c cs ih =>
    have hc : c ≠ ':' := fun hcc => h (hcc ▸ List.mem_cons_self c cs)
    have hcs : ':' ∉ cs := fun hm => h (List.mem_cons_of_mem c hm)
    simp [splitChars, ih hcs, hc]

theorem splitChars_append (p l : List Char) (hd : List Char) (tl : List (List Char))
    (h : ':' ∉ p) (hl : splitChars l = hd :: tl) :
    splitChars (p ++ l) = (p ++ hd) :: tl := by
  induction p with
  | nil => simpa using hl
  | cons c cs ih =>
    have hc : c ≠ ':' := fun hcc => h (hcc ▸ List.mem_cons_self c cs)
    have hcs : ':' ∉ cs := fun hm => h (List.mem_cons_of_mem c hm)
    simp [splitChars, ih hcs, hc]

theorem splitChars_joinChars (parts : List (List Char)) (hne : parts ≠ [])
    (hc : ∀ p ∈ parts, ':' ∉ p) :
    splitChars (joinChars parts) = parts := by
  induction parts with
  | nil => exact absurd rfl hne
  | cons p ps ih =>
    cases ps with
    | nil =>
      simpa [joinChars] using splitChars_no_colon p (hc p (List.mem_cons_self p []))
    | cons q qs =>
      have hih : splitChars (joinChars (q :: qs)) = q :: qs :=
        ih (by simp) (fun r hr => hc r (List.mem_cons_of_mem p hr))
      have hcolon : splitChars (':' :: joinChars (q :: qs)) = [] :: q :: qs := by
        simp [splitChars, hih]
      have := splitChars_append p (':' :: joinChars (q :: qs)) [] (q :: qs)
        (hc p (List.mem_cons_self p _)) hcolon
      simpa [joinChars] using this

theorem mk_data (s : String) : String.mk s.data = s := by cases s; rfl

theorem jsSplit_jsJoin (l : List String) (hne : l ≠ [])
    (hc : ∀ s ∈ l, noColon s) : jsSplit (jsJoin l) = l := by
  unfold jsSplit jsJoin
  rw [splitChars_joinChars (l.map String.data) (by simpa using hne)]
  · rw [List.map_map]
    have : (String.mk ∘ String.data) = id := by
      funext s; exact mk_data s
    simp [this]
  · intro p hp
    rcases List.mem_map.mp hp with ⟨s, hs, rfl⟩
    exact hc s hs

theorem parseChatKey_jsJoin (l : List String) (hne : l ≠ [])
    (hc : ∀ s ∈ l, noColon s) : parseChatKey (jsJoin l) = parseParts l := by
  unfold parseChatKey
  rw [jsSplit_jsJoin l hne hc]

theorem noColon_telegram : noColon "telegram" := by decide
theorem noColon_discord : noColon "discord" := by decide
theorem noColon_group : noColon "group" := by decide
theorem noColon_channel : noColon "channel" := by decide

/-- The encode→decode round trip on the `validTuple` domain. -/
theorem parse_encodeTuple (x : ChatKeyTuple) (h : validTuple x) :
    parseChatKey (encodeTuple x) = some (decodedOf x) := by
  obtain ⟨ch, bot, grp, id, sess⟩ := x
  obtain ⟨hid, hbot, hsess, hch⟩ := h
  simp only at hid hbot hsess hch
  rcases hch with ⟨rfl, hshape⟩ | ⟨rfl, hshape⟩
  · -- telegram
    rcases bot with _ | b
    · cases grp
      · -- single-bot DM
        obtain ⟨hg, hs⟩ := hshape
        rcases sess with _ | s
        · rw [show encodeTuple ⟨"telegram", none, false, id, none⟩
              = jsJoin ["telegram", id] from by simp [encodeTuple, buildChatKey]]
          rw [parseChatKey_jsJoin _ (by simp)
            (by intro t ht; simp at ht
                rcases ht with rfl | rfl
                exacts [noColon_telegram, hid])]
          simp [parseParts, decodedOf, hg]
        · obtain ⟨hs1, hs2, hs3⟩ := hsess s rfl
          obtain ⟨hsg, hsn⟩ := hs s rfl
          rw [show encodeTuple ⟨"telegram", none, false, id, some s⟩
              = jsJoin ["telegram", id, s] from by
                simp [encodeTuple, buildChatKey, hs2, hs3]]
          rw [parseChatKey_jsJoin _ (by simp)
            (by intro t ht; simp at ht
                rcases ht with rfl | rfl | rfl
                exacts [noColon_telegram, hid, hs1])]
          simp [parseParts, decodedOf, hg, hsg, hsn]
      · -- single-bot group
        rcases sess with _ | s
        · rw [show encodeTuple ⟨"telegram", none, true, id, none⟩
              = jsJoin ["telegram", "group", id] from by
                simp [encodeTuple, buildChatKey]]
          rw [parseChatKey_jsJoin _ (by simp)
            (by intro t ht; simp at ht
                rcases ht with rfl | rfl | rfl
                exacts [noColon_telegram, noColon_group, hid])]
          simp [parseParts, decodedOf]
        · obtain ⟨hs1, hs2, hs3⟩ := hsess s rfl
          rw [show encodeTuple ⟨"telegram", none, true, id, some s⟩
              = jsJoin ["telegram", "group", id, s] from by
                simp [encodeTuple, buildChatKey, hs2, hs3]]
          rw [parseChatKey_jsJoin _ (by simp)
            (by intro t ht; simp at ht
                rcases ht with rfl | rfl | rfl | rfl
                exacts [noColon_telegram, noColon_group, hid, hs1])]
          simp [parseParts, decodedOf]
    · obtain ⟨hb1, hb2⟩ := hbot b rfl
      cases grp
      · -- multi-bot DM
        obtain ⟨hbg, hnum⟩ := hshape
        have hidg : id ≠ "group" := by
          intro hgg
          rw [hgg] at hnum
          exact absurd hnum (by decide)
        rcases sess with _ | s
        · rw [show encodeTuple ⟨"telegram", some b, false, id, none⟩
              = jsJoin ["telegram", b, id] from by
                simp [encodeTuple, buildChatKey, hb2]]
          rw [parseChatKey_jsJoin _ (by simp)
            (by intro t ht; simp at ht
                rcases ht with rfl | rfl | rfl
                exacts [noColon_telegram, hb1, hid])]
          simp [parseParts, decodedOf, hbg, hidg, hnum]
        · obtain ⟨hs1, hs2, hs3⟩ := hsess s rfl
          rw [show encodeTuple ⟨"telegram", some b, false, id, some s⟩
              = jsJoin ["telegram", b, id, s] from by
                simp [encodeTuple, buildChatKey, hb2, hs2, hs3]]
          rw [parseChatKey_jsJoin _ (by simp)
            (by intro t ht; simp at ht
                rcases ht with rfl | rfl | rfl | rfl
                exacts [noColon_telegram, hb1, hid, hs1])]
          simp [parseParts, decodedOf, hbg, hidg, hnum]
      · -- multi-bot group
        have hbg : b ≠ "group" := hshape
        rcases sess with _ | s
        · rw [show encodeTuple ⟨"telegram", some b, true, id, none⟩
              = jsJoin ["telegram", b, "group", id] from by
                simp [encodeTuple, buildChatKey, hb2]]
          rw [parseChatKey_jsJoin _ (by simp)
            (by intro t ht; simp at ht
                rcases ht with rfl | rfl | rfl | rfl
                exacts [noColon_telegram, hb1, noColon_group, hid])]
          simp [parseParts, decodedOf, hbg]
        · obtain ⟨hs1, hs2, hs3⟩ := hsess s rfl
          rw [show encodeTuple ⟨"telegram", some b, true, id, some s⟩
              = jsJoin ["telegram", b, "group", id, s] from by
                simp [encodeTuple, buildChatKey, hb2, hs2, hs3]]
          rw [parseChatKey_jsJoin _ (by simp)
            (by intro t ht; simp at ht
                rcases ht with rfl | rfl | rfl | rfl | rfl
                exacts [noColon_telegram, hb1, noColon_group, hid, hs1])]
          simp [parseParts, decodedOf, hbg]
  · -- discord
    rcases bot with _ | b
    · cases grp
      · -- single-bot DM: round-trips only without an explicit session name
        obtain ⟨hic, hsn⟩ := hshape
        subst hsn
        rw [show encodeTuple ⟨"discord", none, false, id, none⟩
            = jsJoin ["discord", id] from by simp [encodeTuple, buildChatKey]]
        rw [parseChatKey_jsJoin _ (by simp)
          (by intro t ht; simp at ht
              rcases ht with rfl | rfl
              exacts [noColon_discord, hid])]
        simp [parseParts, decodedOf, hic]
      · -- single-bot channel
        rcases sess with _ | s
        · rw [show encodeTuple ⟨"discord", none, true, id, none⟩
              = jsJoin ["discord", "channel", id] from by
                simp [encodeTuple, buildChatKey]]
          rw [parseChatKey_jsJoin _ (by simp)
            (by intro t ht; simp at ht
                rcases ht with rfl | rfl | rfl
                exacts [noColon_discord, noColon_channel, hid])]
          simp [parseParts, decodedOf]
        · obtain ⟨hs1, hs2, hs3⟩ := hsess s rfl
          rw [show encodeTuple ⟨"discord", none, true, id, some s⟩
              = jsJoin ["discord", "channel", id, s] from by
                simp [encodeTuple, buildChatKey, hs2, hs3]]
          rw [parseChatKey_jsJoin _ (by simp)
            (by intro t ht; simp at ht
                rcases ht with rfl | rfl | rfl | rfl
                exacts [noColon_discord, noColon_channel, hid, hs1])]
          simp [parseParts, decodedOf]
    · obtain ⟨hb1, hb2⟩ := hbot b rfl
      cases grp
      · -- multi-bot DM
        obtain ⟨hbc, hic⟩ := hshape
        rcases sess with _ | s
        · rw [show encodeTuple ⟨"discord", some b, false, id, none⟩
              = jsJoin ["discord", b, id] from by
                simp [encodeTuple, buildChatKey, hb2]]
          rw [parseChatKey_jsJoin _ (by simp)
            (by intro t ht; simp at ht
                rcases ht with rfl | rfl | rfl
                exacts [noColon_discord, hb1, hid])]
          simp [parseParts, decodedOf, hbc, hic]
        · obtain ⟨hs1, hs2, hs3⟩ := hsess s rfl
          rw [show encodeTuple ⟨"discord", some b, false, id, some s⟩
              = jsJoin ["discord", b, id, s] from by
                simp [encodeTuple, buildChatKey, hb2, hs2, hs3]]
          rw [parseChatKey_jsJoin _ (by simp)
            (by intro t ht; simp at ht
                rcases ht with rfl | rfl | rfl | rfl
                exacts [noColon_discord, hb1, hid, hs1])]
          simp [parseParts, decodedOf, hbc, hic]
      · -- multi-bot channel
        have hbc : b ≠ "channel" := hshape
        rcases sess with _ | s
        · rw [show encodeTuple ⟨"discord", some b, true, id, none⟩
              = jsJoin ["discord", b, "channel", id] from by
                simp [encodeTuple, buildChatKey, hb2]]
          rw [parseChatKey_jsJoin _ (by simp)
            (by intro t ht; simp at ht
                rcases ht with rfl | rfl | rfl | rfl
                exacts [noColon_discord, hb1, noColon_channel, hid])]
          simp [parseParts, decodedOf, hbc]
        · obtain ⟨hs1, hs2, hs3⟩ := hsess s rfl
          rw [show encodeTuple ⟨"discord", some b, true, id, some s⟩
              = jsJoin ["discord", b, "channel", id, s] from by
                simp [encodeTuple, buildChatKey, hb2, hs2, hs3]]
          rw [parseChatKey_jsJoin _ (by simp)
            (by intro t ht; simp at ht
                rcases ht with rfl | rfl | rfl | rfl | rfl
                exacts [noColon_discord, hb1, noColon_channel, hid, hs1])]
          simp [parseParts, decodedOf, hbc]

/-! ### Generic store lemmas -/

theorem jsStartsWith_ccb (s : String) : jsStartsWith ("ccb-" ++ s) "ccb-" = true := by
  unfold jsStartsWith
  rw [String.data_append, decide_eq_true_eq,
    show "ccb-".data.length = 4 from rfl,
    show "ccb-".data = ['c', 'c', 'b', '-'] from rfl]
  simp [List.take_succ_cons]

theorem find?_map_pres {α : Type} (p : α → Bool) (f : α → α) (l : List α)
    (hpres : ∀ a, p (f a) = p a) :
    (l.map f).find? p = (l.find? p).map f := by
  induction l with
  | nil => rfl
  | cons a l ih =>
    by_cases h : p a = true
    · rw [List.map_cons, List.find?_cons_of_pos _ (by rw [hpres]; exact h),
        List.find?_cons_of_pos _ h, Option.map_some']
    · rw [List.map_cons,
        List.find?_cons_of_neg _ (by rw [hpres]; simpa using h),
        List.find?_cons_of_neg _ (by simpa using h), ih]

theorem sessionKeyIs_update (k n sid : String) (now : Nat) (r : SessionRow) :
    DB.sessionKeyIs k n { r with sdkSessionId := sid, lastActive := now } =
      DB.sessionKeyIs k n r := rfl

/-- `saveSession` on an existing `(chat_key, session_name)` row rewrites
only `sdk_session_id` and `last_active` of that row. -/
theorem getSession_saveSession_existing (db : DB) (k sid aid n : String)
    (ws : Option String) (now : Nat) (r : SessionRow)
    (h : db.getSession k n = some r) :
    (db.saveSession k sid aid n ws now).getSession k n =
      some { r with sdkSessionId := sid, lastActive := now } := by
  have hmem := List.mem_of_find?_eq_some h
  have hp := List.find?_some h
  have hany : db.sessions.any (DB.sessionKeyIs k n) = true :=
    List.any_eq_true.mpr ⟨r, hmem, hp⟩
  unfold DB.saveSession
  rw [if_pos hany]
  unfold DB.getSession at h ⊢
  simp only
  rw [find?_map_pres _ _ _ (fun a => by
    by_cases ha : DB.sessionKeyIs k n a = true
    · rw [if_pos ha, sessionKeyIs_update, ha]
    · rw [if_neg ha])]
  rw [h, Option.map_some', if_pos hp]

/-- `saveSession` always leaves a row at its own key whose `sdk_session_id`
is the given id and whose `last_active` is `now`. -/
theorem getSession_saveSession_self (db : DB) (k sid aid n : String)
    (ws : Option String) (now : Nat) :
    ∃ r, (db.saveSession k sid aid n ws now).getSession k n = some r ∧
      r.sdkSessionId = sid ∧ r.lastActive = now := by
  by_cases hany : db.sessions.any (DB.sessionKeyIs k n) = true
  · have hsome : (db.sessions.find? (DB.sessionKeyIs k n)).isSome := by
      rw [List.find?_isSome]
      obtain ⟨r, hr, hp⟩ := List.any_eq_true.mp hany
      exact ⟨r, hr, hp⟩
    obtain ⟨r, hr⟩ := Option.isSome_iff_exists.mp hsome
    refine ⟨{ r with sdkSessionId := sid, lastActive := now },
      getSession_saveSession_existing db k sid aid n ws now r hr, rfl, rfl⟩
  · unfold DB.saveSession
    rw [if_neg hany]
    have hnone : db.sessions.find? (DB.sessionKeyIs k n) = none := by
      rw [List.find?_eq_none]
      intro a ha hpa
      exact hany (List.any_eq_true.mpr ⟨a, ha, hpa⟩)
    unfold DB.getSession
    simp only
    rw [List.find?_append, hnone, Option.none_or,
      List.find?_cons_of_pos _ (by simp [DB.sessionKeyIs])]
    exact ⟨_, rfl, rfl, rfl⟩

/-- `processBlock` yields only `text` / `tool_use` chunks. -/
theorem findSome?_processBlock_not_error (content : List ContentBlock)
    (c : StreamChunk)
    (h : content.findSome? SessionManager.processBlock = some c) :
    isErrorChunk c = false := by
  induction content with
  | nil => simp [List.findSome?] at h
  | cons b bs ih =>
    cases b with
    | text t =>
      rw [List.findSome?_cons] at h
      exact (Option.some.inj h) ▸ rfl
    | toolUse nm =>
      rw [List.findSome?_cons] at h
      exact (Option.some.inj h) ▸ rfl
    | other =>
      rw [List.findSome?_cons] at h
      exact ih h

/-- `processSDKMessage` yields only `text` / `tool_use` chunks. -/
theorem processSDKMessage_not_error (ev : SDKEvent) (c : StreamChunk)
    (h : SessionManager.processSDKMessage ev = some c) :
    isErrorChunk c = false := by
  cases ev with
  | result sid => simp [SessionManager.processSDKMessage] at h
  | other => simp [SessionManager.processSDKMessage] at h
  | assistant content =>
    exact findSome?_processBlock_not_error content c h

/-- No `error` chunk arises from forwarding the port's events. -/
theorem countP_error_filterMap (events : List SDKEvent) :
    (events.filterMap SessionManager.processSDKMessage).countP isErrorChunk = 0 := by
  rw [List.countP_eq_zero]
  intro c hc
  obtain ⟨ev, _, hev⟩ := List.mem_filterMap.mp hc
  simp [processSDKMessage_not_error ev c hev]

theorem placeholder_ne_empty (now : Nat) (rand : String) :
    SessionManager.placeholderSessionId now rand ≠ "" := by
  unfold SessionManager.placeholderSessionId
  intro h
  have h2 := congrArg String.data h
  rw [String.data_append] at h2
  simp [show "ccb-".data = ['c', 'c', 'b', '-'] from rfl] at h2

theorem placeholder_startsWith (now : Nat) (rand : String) :
    jsStartsWith (SessionManager.placeholderSessionId now rand) "ccb-" = true :=
  jsStartsWith_ccb _

/-- `runTurn` always reports exactly the stored-row resume decision. -/
theorem runTurn_resume (db : DB) (msg : IncomingMessage) (n : String)
    (agent : AgentConfig) (port : PortRun) (now : Nat) :
    ∃ chunks dbE, SessionManager.runTurn db msg n agent port now =
      .ran (SessionManager.resumeTokenOf db msg.chatKey n) chunks dbE := by
  simp only [SessionManager.runTurn]
  cases hpe : port.error with
  | some e => exact ⟨_, _, rfl⟩
  | none => exact ⟨_, _, rfl⟩

/-- Once agent resolution succeeds, `sendMessage` is `runTurn` at the
resolved agent and effective session name. -/
theorem sendMessage_eq_runTurn (rt : RouterState) (db : DB)
    (msg : IncomingMessage) (opts : SendMessageOptions) (port : PortRun)
    (now : Nat) (agent : AgentConfig)
    (hagent : SessionManager.resolvedAgent rt msg opts = some agent) :
    SessionManager.sendMessage rt db msg opts port now =
      SessionManager.runTurn db msg (SessionManager.sessionNameOf db opts msg)
        agent port now := by
  unfold SessionManager.resolvedAgent at hagent
  simp only [SessionManager.sendMessage]
  cases hopt : opts.agentId with
  | some aid =>
    simp only [hopt] at hagent
    simp only [hopt, hagent]
  | none =>
    simp only [hopt] at hagent
    simp only [hopt, hagent]

/-! ## Claims -/

/-- C1 (amended): decoding an encoded chat-key tuple yields the tuple back
(`sessionName = none` standing for the omitted default `"main"`) for every
tuple in the `validTuple` domain: colon-free segments, no empty or
`"main"` session name, no empty bot id, and per structural shape: a
telegram single-bot DM's peer id is not `"group"` and its session name is
neither `"group"` nor JS-numeric (`!isNaN(Number(s))` per the ECMAScript
`ToNumber` grammar — `jsNumeric` — so decimal, fraction, exponent,
`Infinity`, `0x`/`0o`/`0b` and whitespace-padded forms are all excluded);
a telegram multi-bot tuple's bot id is not `"group"` and a multi-bot DM's
peer id is JS-numeric; a discord tuple's bot id and DM peer id are not
`"channel"`, and a discord single-bot DM carries no explicit session
name.  Groups/channels are otherwise unrestricted. -/
theorem claim_C1 (x : ChatKeyTuple) (h : validTuple x) :
    parseChatKey (encodeTuple x) = some (decodedOf x) :=
  parse_encodeTuple x h

/-- C1 counterexample: the round trip fails outside that domain — a
discord single-bot DM with session name `"work"` encodes to
`discord:42:work`, which decodes as a *multi-bot* DM with bot id `"42"`,
peer id `"work"` and no session name. -/
theorem claim_C1_cex :
    parseChatKey (encodeTuple cexTuple) ≠ some (decodedOf cexTuple) ∧
    parseChatKey (encodeTuple cexTuple) =
      some { channel := "discord", botId := some "42", id := some "work" } :=
  ⟨by decide, by decide⟩

/-- C1 witness: the round trip at the telegram multi-bot DM
`(telegram, bot "b1", DM, peer "123", session "work")`. -/
theorem claim_C1_witness :
    validTuple witTuple ∧
    parseChatKey (encodeTuple witTuple) = some (decodedOf witTuple) := by
  have hv : validTuple witTuple := by
    unfold validTuple witTuple
    refine ⟨by decide, ?_, ?_, Or.inl ⟨rfl, by decide⟩⟩
    · intro b hb
      injection hb with hb
      subst hb
      exact ⟨by decide, by decide⟩
    · intro s hs
      injection hs with hs
      subst hs
      exact ⟨by decide, by decide, by decide⟩
  exact ⟨hv, claim_C1 _ hv⟩

/-- C4 counterexample: resolution does degrade to another profile.  With
one profile `a1` and a single binding routing discord traffic to the
non-existent agent id `"ghost"`, the router (whose constructor computes
default agent `a1`) resolves a discord message to the `a1` profile instead
of failing: `routeMessage` silently falls back. -/
theorem claim_C4_cex :
    Router.mkRouter cexRouter.agents cexRouter.bindings = some cexRouter ∧
    Router.findAgentId cexRouter .discord "7" none = "ghost" ∧
    Router.getAgent cexRouter "ghost" = none ∧
    Router.routeMessage cexRouter cexMessage =
      some { id := "a1", name := "Agent", workspace := "/w" } := by
  refine ⟨by decide, by decide, by decide, by decide⟩

/-- C4 (amended): when the agent id selected by the binding scan has no
profile, `routeMessage` silently falls back to the default agent's
profile; the `No agent configured for routing` error is thrown only when
the default agent's profile is missing as well. -/
theorem claim_C4 (rt : RouterState) (message : IncomingMessage) :
    (Router.getAgent rt
        (Router.findAgentId rt message.channel message.userId message.groupId) =
          none →
      Router.routeMessage rt message = Router.getAgent rt rt.defaultAgentId) ∧
    (Router.routeMessage rt message = none ↔
      Router.getAgent rt
        (Router.findAgentId rt message.channel message.userId message.groupId) =
          none ∧
      Router.getAgent rt rt.defaultAgentId = none) := by
  simp only [Router.routeMessage]
  cases hx : Router.getAgent rt
      (Router.findAgentId rt message.channel message.userId message.groupId) with
  | none =>
    refine ⟨fun _ => rfl, ?_⟩
    cases hd : Router.getAgent rt rt.defaultAgentId <;> simp
  | some a => simp

/-- C4 witness: the amended statement at the drifted configuration. -/
theorem claim_C4_witness :
    Router.routeMessage cexRouter cexMessage =
      Router.getAgent cexRouter cexRouter.defaultAgentId :=
  (claim_C4 cexRouter cexMessage).1 (by decide)

/-- C5: for an enabled channel under policy `open` the decision is always
`Allowed` (no reason) whatever the allow-set holds; under policy
`allowlist` with an empty persisted allow-set and an empty configured
`allowFrom` the decision is always denied; and a disabled channel is
always denied whatever the policy. -/
theorem claim_C5 (db : DB) (chatKey : String) (u : UserInfo)
    (cfg : ChannelConfig) :
    (cfg.enabled = true → cfg.dmPolicy = .openPolicy →
      AllowlistManager.isAllowed db chatKey u (some cfg) = { allowed := true }) ∧
    (cfg.dmPolicy = .allowlist → db.allowRows = [] → cfg.allowFrom = [] →
      (AllowlistManager.isAllowed db chatKey u (some cfg)).allowed = false) ∧
    (cfg.enabled = false →
      (AllowlistManager.isAllowed db chatKey u (some cfg)).allowed = false) := by
  refine ⟨?_, ?_, ?_⟩
  · intro he hp
    simp [AllowlistManager.isAllowed, he, hp]
  · intro hp hrows haf
    cases henb : cfg.enabled with
    | false => simp [AllowlistManager.isAllowed, henb]
    | true =>
      simp [AllowlistManager.isAllowed, henb, hp, DB.isAllowed, hrows,
        AllowlistManager.isInConfigAllowlist, haf]
  · intro he
    simp [AllowlistManager.isAllowed, he]

/-- C5 witness: the three policy rows at a concrete database and user. -/
theorem claim_C5_witness :
    AllowlistManager.isAllowed {} "telegram:1"
        { id := "u", channel := .telegram }
        (some { enabled := true, dmPolicy := .openPolicy }) =
      { allowed := true } ∧
    (AllowlistManager.isAllowed {} "telegram:1"
        { id := "u", channel := .telegram }
        (some { enabled := true, dmPolicy := .allowlist })).allowed = false ∧
    (AllowlistManager.isAllowed {} "telegram:1"
        { id := "u", channel := .telegram }
        (some { enabled := false, dmPolicy := .pairing })).allowed = false :=
  ⟨(claim_C5 {} "telegram:1" { id := "u", channel := .telegram } _).1 rfl rfl,
   (claim_C5 {} "telegram:1" { id := "u", channel := .telegram } _).2.1 rfl rfl rfl,
   (claim_C5 {} "telegram:1" { id := "u", channel := .telegram } _).2.2 rfl⟩

/-- C9: the `saveSession` upsert on an existing `(chat_key, session_name)`
row replaces only `sdk_session_id` and `last_active`; `agent_id`,
`workspace`, `created_at` and `status` stay those of the stored row even
when the call supplies a different agent id or workspace. -/
theorem claim_C9 (db : DB) (k sid aid n : String) (ws : Option String)
    (now : Nat) (r : SessionRow) (h : db.getSession k n = some r) :
    (db.saveSession k sid aid n ws now).getSession k n =
      some { r with sdkSessionId := sid, lastActive := now } :=
  getSession_saveSession_existing db k sid aid n ws now r h

/-- C9 witness: recording handle `sdk-123` for `row9` under agent `a2` and
workspace `/other` keeps the row's `a1` / `/w` / `createdAt 1` / `active`,
changing only the handle and `last_active`. -/
theorem claim_C9_witness :
    (db9.saveSession "telegram:5" "sdk-123" "a2" "main" (some "/other") 9
      ).getSession "telegram:5" "main" =
      some { row9 with sdkSessionId := "sdk-123", lastActive := 9 } :=
  claim_C9 db9 "telegram:5" "sdk-123" "a2" "main" (some "/other") 9 row9
    (by decide)

/-- C8: an `approve` of an expired request (with the code exactly as
issued, i.e. in canonical uppercase form) returns the `Pairing code has
expired` failure and deletes the row; after that no `listPending` result
at any instant contains the code; and `listPending` generally returns
only rows whose expiry lies strictly in the future. -/
theorem claim_C8 (db : DB) (now nowQ : Nat) (code : String) (r : PairingRow)
    (hget : db.getPairingRequest code = some r)
    (hcanon : jsToUpper code = code)
    (hexp : r.expiresAt < now) :
    PairingManager.approve db now code =
      (db.deletePairingRequest code, .failed "Pairing code has expired") ∧
    (PairingManager.approve db now code).1.getPairingRequest code = none ∧
    (∀ q ∈ PairingManager.listPending (PairingManager.approve db now code).1
        nowQ, q.code ≠ code) ∧
    (∀ q ∈ PairingManager.listPending db nowQ, nowQ < q.expiresAt) := by
  have happ : PairingManager.approve db now code =
      (db.deletePairingRequest code, .failed "Pairing code has expired") := by
    unfold PairingManager.approve
    rw [hcanon, hget]
    exact if_pos hexp
  refine ⟨happ, ?_, ?_, ?_⟩
  · rw [happ]
    unfold DB.getPairingRequest DB.deletePairingRequest
    simp only
    rw [List.find?_eq_none]
    intro q hq
    have := (List.mem_filter.mp hq).2
    simp only [Bool.not_eq_true'] at this
    simpa using this
  · intro q hq
    rw [happ] at hq
    unfold PairingManager.listPending DB.listPendingPairingRequests
      DB.deletePairingRequest at hq
    simp only at hq
    have hmem := (List.mem_filter.mp hq).1
    have := (List.mem_filter.mp hmem).2
    simp only [Bool.not_eq_true'] at this
    simpa using this
  · intro q hq
    unfold PairingManager.listPending DB.listPendingPairingRequests at hq
    have := (List.mem_filter.mp hq).2
    simpa using this

/-- C8 witness: the request issued with `ttl = 0` (`expiredRow`, expiry
instant 0), approved at instant 5: expired failure, row deleted, excluded
from `listPending` at instant 1. -/
theorem claim_C8_witness :
    DB.getPairingRequest expiredDB "FFAA00" = some expiredRow ∧
    PairingManager.approve expiredDB 5 "FFAA00" =
      (expiredDB.deletePairingRequest "FFAA00",
       .failed "Pairing code has expired") ∧
    (PairingManager.approve expiredDB 5 "FFAA00").1.getPairingRequest
      "FFAA00" = none ∧
    (∀ q ∈ PairingManager.listPending
        (PairingManager.approve expiredDB 5 "FFAA00").1 1, q.code ≠ "FFAA00") :=
  ⟨by decide,
   (claim_C8 expiredDB 5 1 "FFAA00" expiredRow (by decide) (by decide)
     (by decide)).1,
   (claim_C8 expiredDB 5 1 "FFAA00" expiredRow (by decide) (by decide)
     (by decide)).2.1,
   (claim_C8 expiredDB 5 1 "FFAA00" expiredRow (by decide) (by decide)
     (by decide)).2.2.1⟩

/-- C3 (code-bug evidence): `approve` finds the stored uppercase code
`AB12CD` case-insensitively when called with `ab12cd` and succeeds, but
deletes with the raw lowercase string, so the row survives; a second
`approve("ab12cd")` succeeds again instead of failing with not-found —
replay promotes the chat key twice.  With the input in canonical case the
single-use behaviour the claim states does hold (last conjunct). -/
theorem claim_C3 :
    (PairingManager.approve bugDB 10 "ab12cd").2 =
      .ok "telegram:5" { id := "5", channel := .telegram } ∧
    (PairingManager.approve bugDB 10 "ab12cd").1.getPairingRequest "AB12CD" =
      some bugRow ∧
    (PairingManager.approve
        (PairingManager.approve bugDB 10 "ab12cd").1 10 "ab12cd").2 =
      .ok "telegram:5" { id := "5", channel := .telegram } ∧
    (PairingManager.approve
        (PairingManager.approve bugDB 10 "AB12CD").1 10 "AB12CD").2 =
      .failed "Invalid or expired pairing code" := by
  refine ⟨by decide, by decide, by decide, by decide⟩

/-- C2: (i) a freshly created session's stored handle is a `ccb-`
placeholder and is never offered as a resume token; (ii) once a real
handle (non-empty, not `ccb-`-prefixed) has been recorded by the
`saveSession` upsert, the resume decision for that key yields exactly that
handle; (iii) a resume token is offered precisely when a stored row exists
whose handle is not a placeholder; (iv) every resolved `sendMessage` turn
passes exactly that decision to the execution port. -/
theorem claim_C2 :
    (∀ (db : DB) (k : String) (agent : AgentConfig) (n : String) (now : Nat)
        (rand : String),
      SessionManager.resumeTokenOf
        (SessionManager.createNewSession db k agent n now rand) k n = none) ∧
    (∀ (db : DB) (k n hdl aid : String) (ws : Option String) (now : Nat),
      hdl ≠ "" → jsStartsWith hdl "ccb-" = false →
      SessionManager.resumeTokenOf (db.saveSession k hdl aid n ws now) k n =
        some hdl) ∧
    (∀ (db : DB) (k n hdl : String),
      SessionManager.resumeTokenOf db k n = some hdl →
      ∃ r, db.getSession k n = some r ∧ r.sdkSessionId = hdl ∧ hdl ≠ "" ∧
        jsStartsWith hdl "ccb-" = false) ∧
    (∀ (rt : RouterState) (db : DB) (msg : IncomingMessage)
        (opts : SendMessageOptions) (port : PortRun) (now : Nat)
        (agent : AgentConfig),
      SessionManager.resolvedAgent rt msg opts = some agent →
      ∃ chunks dbE, SessionManager.sendMessage rt db msg opts port now =
        .ran (SessionManager.resumeTokenOf db msg.chatKey
          (SessionManager.sessionNameOf db opts msg)) chunks dbE) := by
  refine ⟨?_, ?_, ?_, ?_⟩
  · intro db k agent n now rand
    obtain ⟨r, hr, hsid, _⟩ := getSession_saveSession_self db k
      (SessionManager.placeholderSessionId now rand) agent.id n
      (some agent.workspace) now
    unfold SessionManager.resumeTokenOf SessionManager.createNewSession
    rw [hr]
    change (if r.sdkSessionId = "" then none
      else if jsStartsWith r.sdkSessionId "ccb-" = true then none
      else some r.sdkSessionId) = none
    rw [hsid, if_neg (placeholder_ne_empty now rand),
      if_pos (placeholder_startsWith now rand)]
  · intro db k n hdl aid ws now hne hccb
    obtain ⟨r, hr, hsid, _⟩ := getSession_saveSession_self db k hdl aid n ws now
    unfold SessionManager.resumeTokenOf
    rw [hr]
    change (if r.sdkSessionId = "" then none
      else if jsStartsWith r.sdkSessionId "ccb-" = true then none
      else some r.sdkSessionId) = some hdl
    rw [hsid, if_neg hne, if_neg (by simp [hccb])]
  · intro db k n hdl hres
    unfold SessionManager.resumeTokenOf at hres
    cases hx : db.getSession k n with
    | none => rw [hx] at hres; cases hres
    | some row =>
      rw [hx] at hres
      change (if row.sdkSessionId = "" then none
        else if jsStartsWith row.sdkSessionId "ccb-" = true then none
        else some row.sdkSessionId) = some hdl at hres
      by_cases h1 : row.sdkSessionId = ""
      · rw [if_pos h1] at hres; cases hres
      · rw [if_neg h1] at hres
        by_cases h2 : jsStartsWith row.sdkSessionId "ccb-" = true
        · rw [if_pos h2] at hres; cases hres
        · rw [if_neg h2] at hres
          have h3 := Option.some.inj hres
          subst h3
          exact ⟨row, rfl, rfl, h1, by simpa using h2⟩
  · intro rt db msg opts port now agent hag
    obtain ⟨chunks, dbE, hrt⟩ := runTurn_resume db msg
      (SessionManager.sessionNameOf db opts msg) agent port now
    exact ⟨chunks, dbE, by
      rw [sendMessage_eq_runTurn rt db msg opts port now agent hag, hrt]⟩

/-- C2 witness: recording real handle `sdk-99` makes the next resume
decision on the same key yield it, and a concrete resolved `sendMessage`
turn reports exactly the stored-row resume decision. -/
theorem claim_C2_witness :
    SessionManager.resumeTokenOf
        (DB.saveSession {} "telegram:5" "sdk-99" "a1" "main" (some "/w") 7)
        "telegram:5" "main" = some "sdk-99" ∧
    (∃ chunks dbE,
      SessionManager.sendMessage rt0 {} msg0 {} { events := [] } 0 =
        .ran (SessionManager.resumeTokenOf {} msg0.chatKey
          (SessionManager.sessionNameOf {} {} msg0)) chunks dbE) :=
  ⟨claim_C2.2.1 {} "telegram:5" "main" "sdk-99" "a1" (some "/w") 7
      (by decide) (by decide),
   claim_C2.2.2.2 rt0 {} msg0 {} { events := [] } 0 agent0 (by decide)⟩

/-- C7: when the execution port raises during a resolved turn, the
streamed response is the chunks forwarded so far followed by a single
terminal `error` chunk — the whole stream contains exactly one `error`
chunk — and the database is left exactly as it was: no session-handle
update is persisted for the failed turn. -/
theorem claim_C7 (rt : RouterState) (db : DB) (msg : IncomingMessage)
    (opts : SendMessageOptions) (port : PortRun) (now : Nat) (e : String)
    (agent : AgentConfig)
    (hagent : SessionManager.resolvedAgent rt msg opts = some agent)
    (herr : port.error = some e) :
    SessionManager.sendMessage rt db msg opts port now =
      .ran (SessionManager.resumeTokenOf db msg.chatKey
          (SessionManager.sessionNameOf db opts msg))
        ((port.events.filterMap SessionManager.processSDKMessage) ++
          [StreamChunk.error e]) db ∧
    ((port.events.filterMap SessionManager.processSDKMessage) ++
        [StreamChunk.error e]).countP isErrorChunk = 1 := by
  constructor
  · rw [sendMessage_eq_runTurn rt db msg opts port now agent hagent]
    simp only [SessionManager.runTurn, herr]
  · rw [List.countP_append, countP_error_filterMap]
    simp [List.countP_cons, isErrorChunk]

/-- C7 witness: a port that delivers one text event and then raises
`boom` yields `[text "partial", error "boom"]` and leaves the empty
database empty. -/
theorem claim_C7_witness :
    SessionManager.sendMessage rt0 {} msg0 {} errPort 0 =
      .ran (SessionManager.resumeTokenOf {} msg0.chatKey
          (SessionManager.sessionNameOf {} {} msg0))
        ((errPort.events.filterMap SessionManager.processSDKMessage) ++
          [StreamChunk.error "boom"]) {} ∧
    ((errPort.events.filterMap SessionManager.processSDKMessage) ++
        [StreamChunk.error "boom"]).countP isErrorChunk = 1 :=
  claim_C7 rt0 {} msg0 {} errPort 0 "boom" agent0 (by decide) (by decide)

theorem chain_iff (A B C : Bool) :
    (if A then false else if B then false else if C then false else true) =
        true ↔
      A = false ∧ B = false ∧ C = false := by
  cases A <;> cases B <;> cases C <;> simp

theorem chanOk_iff (mc : Option ChannelType) (ch : ChannelType) :
    (match mc with
      | some c => decide (c ≠ ch)
      | none => false) = false ↔ ∀ c, mc = some c → c = ch := by
  cases mc <;> simp

theorem peerOk_iff (mp : Option String) (p : String) :
    (match mp with
      | some q => decide (q ≠ "") && decide (q ≠ p)
      | none => false) = false ↔ ∀ q, mp = some q → q ≠ "" → q = p := by
  cases mp with
  | none => simp
  | some q => by_cases hq : q = "" <;> by_cases hqp : q = p <;> simp [hq, hqp]

theorem groupOk_iff (mg : Option String) (g : Option String) :
    (match mg with
      | some q => decide (q ≠ "") && decide (some q ≠ g)
      | none => false) = false ↔
      ∀ q, mg = some q → q ≠ "" → g = some q := by
  cases mg with
  | none => simp
  | some q =>
    by_cases hq : q = ""
    · simp [hq]
    · by_cases hqg : some q = g
      · constructor
        · intro _ qp hqp _
          injection hqp with hqp
          subst hqp
          exact hqg.symm
        · intro _
          simp [hq, hqg]
      · constructor
        · intro hfalse
          simp [hq, hqg] at hfalse
        · intro hall
          exact absurd (hall q rfl hq).symm hqg

/-- C6 counterexample to the claim's "matches iff every criterion it
specifies equals the corresponding input field": a binding that specifies
the peer criterion as the empty string matches a message from peer `"x"`
(JS truthiness skips a falsy criterion), although the spec-worded matcher
rejects it. -/
theorem claim_C6_cex :
    Router.matchesBinding { agentId := "B", mtch := some { peer := some "" } }
      .telegram "x" none = true ∧
    ¬ specMatchesBinding { agentId := "B", mtch := some { peer := some "" } }
      .telegram "x" none := by
  refine ⟨by decide, fun h => ?_⟩
  have h2 := h.2.1 "" rfl
  exact absurd h2 (by decide)

/-- C6 (amended): bindings are scanned in configured order and the first
match's agent id is returned, with the default agent id when none match;
a binding matches iff every criterion it specifies *with a non-empty
value* equals the corresponding input field (absent criteria — and
criteria given as the empty string, which JS truthiness treats as absent —
always match); in particular with bindings
`[{agent A, match channel discord}, {agent B}]` a discord message resolves
to `A` and a telegram message to `B`. -/
theorem claim_C6 :
    (∀ (b : AgentBinding) (ch : ChannelType) (p : String) (g : Option String),
      Router.matchesBinding b ch p g = true ↔
        (match b.mtch with
         | none => True
         | some m =>
             (∀ c, m.channel = some c → c = ch) ∧
             (∀ q, m.peer = some q → q ≠ "" → q = p) ∧
             (∀ q, m.group = some q → q ≠ "" → g = some q))) ∧
    (∀ (rt : RouterState) (ch : ChannelType) (p : String) (g : Option String),
      (∀ b ∈ rt.bindings, Router.matchesBinding b ch p g = false) →
      Router.findAgentId rt ch p g = rt.defaultAgentId) ∧
    (∀ (rt : RouterState) (ch : ChannelType) (p : String) (g : Option String)
        (l₁ : List AgentBinding) (b : AgentBinding) (l₂ : List AgentBinding),
      rt.bindings = l₁ ++ b :: l₂ →
      Router.matchesBinding b ch p g = true →
      (∀ bp ∈ l₁, Router.matchesBinding bp ch p g = false) →
      Router.findAgentId rt ch p g = b.agentId) ∧
    (∀ (u : String) (g : Option String) (rt : RouterState),
      rt.bindings = rt6.bindings →
      Router.findAgentId rt .discord u g = "A" ∧
      Router.findAgentId rt .telegram u g = "B") := by
  refine ⟨?_, ?_, ?_, ?_⟩
  · intro b ch p g
    cases hm : b.mtch with
    | none => simp [Router.matchesBinding, hm]
    | some m =>
      simp only [Router.matchesBinding, hm]
      exact (chain_iff _ _ _).trans
        (and_congr (chanOk_iff m.channel ch)
          (and_congr (peerOk_iff m.peer p) (groupOk_iff m.group g)))
  · intro rt ch p g hall
    unfold Router.findAgentId
    have hnone : rt.bindings.find?
        (fun b => Router.matchesBinding b ch p g) = none :=
      List.find?_eq_none.mpr (fun b hb => by simp [hall b hb])
    rw [hnone]
  · intro rt ch p g l₁ b l₂ hbind hb hprev
    unfold Router.findAgentId
    rw [hbind, List.find?_append]
    have h1 : l₁.find? (fun bp => Router.matchesBinding bp ch p g) = none :=
      List.find?_eq_none.mpr (fun bp hbp => by simp [hprev bp hbp])
    have h2 : List.find? (fun bp => Router.matchesBinding bp ch p g)
        (b :: l₂) = some b := by
      apply List.find?_cons_of_pos
      exact hb
    rw [h1, Option.none_or, h2]
  · intro u g rt hb
    unfold Router.findAgentId
    rw [hb]
    constructor <;> simp [rt6, List.find?, Router.matchesBinding]

/-- C6 witness: the empty binding list falls back to the default agent,
and the spec §8 binding list routes discord to `A` and telegram to `B`. -/
theorem claim_C6_witness :
    Router.findAgentId rtEmpty .telegram "x" none = "dflt" ∧
    Router.findAgentId rt6 .discord "u" none = "A" ∧
    Router.findAgentId rt6 .telegram "u" none = "B" :=
  ⟨claim_C6.2.1 rtEmpty .telegram "x" none (fun b hb => by cases hb),
   (claim_C6.2.2.2 "u" none rt6 rfl).1,
   (claim_C6.2.2.2 "u" none rt6 rfl).2⟩

/-- C10: an empty (or absent, which the code treats identically)
`allowFrom` list admits no user; otherwise an entry admits the user iff it
equals the user's id byte-for-byte, or the user has a username and the
entry equals it exactly or — for a non-empty username — up to ASCII case. -/
theorem claim_C10 (u : UserInfo) (cfg : ChannelConfig) :
    (cfg.allowFrom = [] →
      AllowlistManager.isInConfigAllowlist u cfg = false) ∧
    (AllowlistManager.isInConfigAllowlist u cfg = true ↔
      ∃ a ∈ cfg.allowFrom, a = u.id ∨
        ∃ un, u.username = some un ∧
          (a = un ∨ (un ≠ "" ∧ jsToLower a = jsToLower un))) := by
  constructor
  · intro h
    simp [AllowlistManager.isInConfigAllowlist, h]
  · unfold AllowlistManager.isInConfigAllowlist
    by_cases hemp : cfg.allowFrom.isEmpty
    · rw [if_pos hemp]
      have h0 : cfg.allowFrom = [] := List.isEmpty_iff.mp hemp
      simp [h0]
    · rw [if_neg hemp, List.any_eq_true]
      refine exists_congr fun a => and_congr_right fun _ => ?_
      cases hu : u.username with
      | none => simp [hu]
      | some un =>
        by_cases hun : un = ""
        · simp [hu, hun]
        · simp [hu, hun]
          tauto

/-- C10 witness: user `alice` is not admitted by an empty `allowFrom` and
is admitted by `["ALICE"]` via the case-insensitive username clause. -/
theorem claim_C10_witness :
    AllowlistManager.isInConfigAllowlist
        { id := "7", username := some "alice", channel := .telegram }
        { enabled := true, dmPolicy := .pairing } = false ∧
    AllowlistManager.isInConfigAllowlist
        { id := "7", username := some "alice", channel := .telegram }
        { enabled := true, dmPolicy := .pairing, allowFrom := ["ALICE"] } =
      true :=
  ⟨(claim_C10 _ _).1 rfl,
   (claim_C10 _ _).2.mpr
     ⟨"ALICE", by simp,
      Or.inr ⟨"alice", rfl, Or.inr ⟨by decide, by decide⟩⟩⟩⟩

end CcBridge
